/-
Verification of the Texter voice-dictation assistant.

This file shallowly embeds the parts of the repository that the verified
properties talk about: the string utilities (src/src/utils/string_utils.py,
src/src/helperFunctions.py), the text processor
(src/src/commands/text_processor.py and src/src/TextProcessor.py), the
keyboard and switch command executors (src/src/commands/command_executors.py),
the command dispatcher (src/src/state/app_state.py), the inline
punctuation and capitalization toggles of the interpreter loop
(src/src/SpeechRecognitionUtils.py), and the ALSA error-suppression scope
(src/src/utils/error_handler.py).

Python strings are modelled as Lean String / List Char; Python exceptions
are modelled with an explicit error type threaded through Except or Option;
alphabet classifications follow the ASCII behaviour of the inputs involved.
-/
import Mathlib

/-- Python exception kinds raised by the embedded code. -/
inductive PyErr where
  | valueError
  | indexError
  | keyError (k : String)
  | typeError
  | attributeError (attr : String)
  | systemExit
  deriving DecidableEq, Repr

namespace PyStr

/-- Whitespace characters recognised by Python str.split / str.strip (ASCII). -/
def pyIsSpace (c : Char) : Bool :=
  c == ' ' || c == '\t' || c == '\n' || c == '\x0d' || c == '\x0b' || c == '\x0c'

/-- Word characters of the re module (ASCII): letters, digits and underscore. -/
def isWordChar (c : Char) : Bool :=
  c.isAlpha || c.isDigit || c == '_'

/-- Tests whether the needle (second argument) begins the haystack (first argument). -/
def startsWithL : List Char → List Char → Bool
  | _, [] => true
  | [], _ :: _ => false
  | c :: t, n :: nt => c == n && startsWithL t nt

theorem startsWithL_length {hay needle : List Char}
    (h : startsWithL hay needle = true) : needle.length ≤ hay.length := by
  induction needle generalizing hay with
  | nil => simp
  | cons n nt ih =>
    cases hay with
    | nil => simp [startsWithL] at h
    | cons c t =>
      simp only [startsWithL, Bool.and_eq_true] at h
      simpa using ih h.2

/-- Python substring containment (the in operator on str). -/
def containsL : List Char → List Char → Bool
  | [], needle => startsWithL [] needle
  | hay@(_ :: t), needle => startsWithL hay needle || containsL t needle

/-- Python str.split(sep) for a non-empty separator, on character lists.
The separator is passed as head and tail so that it is non-empty by
construction; every occurrence splits, empty pieces are kept. -/
def splitSepL (s0 : Char) (srest : List Char) (hay : List Char) : List (List Char) :=
  if h : startsWithL hay (s0 :: srest) = true then
    [] :: splitSepL s0 srest (hay.drop (srest.length + 1))
  else
    match hay with
    | [] => [[]]
    | c :: t =>
      match splitSepL s0 srest t with
      | [] => [[c]]
      | l :: ls => (c :: l) :: ls
termination_by hay.length
decreasing_by
  · have hlen := startsWithL_length h
    simp only [List.length_cons] at hlen
    have hpos : 0 < hay.length := lt_of_lt_of_le (Nat.succ_pos _) hlen
    simp only [List.length_drop]
    exact Nat.sub_lt hpos (Nat.succ_pos _)
  · simp

/-- Python str.split(sep) on strings; Python rejects an empty separator, which
never occurs in the embedded code, so that case is mapped to the whole string. -/
def pySplit (s sep : String) : List String :=
  match sep.toList with
  | [] => [s]
  | c :: t => (splitSepL c t s.toList).map (fun l => String.mk l)

/-- Python substring containment on strings. -/
def pyContains (s sub : String) : Bool :=
  containsL s.toList sub.toList

/-- Python str.startswith on strings. -/
def pyStartsWith (s pre : String) : Bool :=
  startsWithL s.toList pre.toList

/-- Python str.strip() on character lists. -/
def pyStripL (l : List Char) : List Char :=
  ((l.dropWhile pyIsSpace).reverse.dropWhile pyIsSpace).reverse

/-- Python str.strip() on strings. -/
def pyStrip (s : String) : String :=
  String.mk (pyStripL s.toList)

/-- Python str.capitalize(): first character uppercased, the rest lowercased. -/
def pyCapitalizeL : List Char → List Char
  | [] => []
  | c :: t => c.toUpper :: t.map Char.toLower

/-- Python str.capitalize() on strings. -/
def pyCapitalize (s : String) : String :=
  String.mk (pyCapitalizeL s.toList)

/-- Python str.lower() on strings (ASCII). -/
def pyLower (s : String) : String :=
  String.mk (s.toList.map Char.toLower)

/-- Python str.isdigit() (ASCII digits). -/
def pyIsDigit (s : String) : Bool :=
  !s.toList.isEmpty && s.toList.all Char.isDigit

/-- Numeric value of a list of decimal digits. -/
def natOfDigitsL (l : List Char) : Nat :=
  l.foldl (fun n c => 10 * n + (c.toNat - '0'.toNat)) 0

/-- Python int(str): optional surrounding whitespace, optional sign, digits;
anything else raises ValueError. -/
def pyInt (s : String) : Except PyErr Int :=
  match pyStripL s.toList with
  | '-' :: ds =>
    if !ds.isEmpty && ds.all Char.isDigit then .ok (-(natOfDigitsL ds : Int))
    else .error .valueError
  | '+' :: ds =>
    if !ds.isEmpty && ds.all Char.isDigit then .ok (natOfDigitsL ds : Int)
    else .error .valueError
  | ds =>
    if !ds.isEmpty && ds.all Char.isDigit then .ok (natOfDigitsL ds : Int)
    else .error .valueError

theorem dropWhile_length_le (p : Char → Bool) (l : List Char) :
    (l.dropWhile p).length ≤ l.length := by
  induction l with
  | nil => simp
  | cons c t ih =>
    by_cases h : p c
    · simpa [List.dropWhile, h] using Nat.le_succ_of_le ih
    · simp [List.dropWhile, h]

/-- Python str.split() with no argument: maximal runs of non-whitespace,
empty pieces discarded. -/
def splitWsL : List Char → List (List Char)
  | [] => []
  | c :: t =>
    if pyIsSpace c then splitWsL t
    else (c :: t.takeWhile (fun d => !pyIsSpace d)) ::
      splitWsL (t.dropWhile (fun d => !pyIsSpace d))
termination_by l => l.length
decreasing_by
  · simp
  · have := dropWhile_length_le (fun d => !pyIsSpace d) t
    simpa using Nat.lt_succ_of_le this

/-- Python str.split() on strings. -/
def pySplitWs (s : String) : List String :=
  (splitWsL s.toList).map (fun l => String.mk l)

/-- Python str.replace(old, new) for a non-empty pattern: split on the
pattern and rejoin with the replacement. -/
def pyReplace (s pat rep : String) : String :=
  String.intercalate rep (pySplit s pat)

end PyStr

open PyStr

/-- Modelled from the spec: the vendored spoken-number-to-digit parser
(word2number w2n.word_to_num, excluded from the repository as a third-party
dependency; spec section 6) converts a single English number word to its
integer value and raises ValueError for an unrecognized word. -/
def word_to_num (w : String) : Except PyErr Nat :=
  match w with
  | "zero" => .ok 0
  | "one" => .ok 1
  | "two" => .ok 2
  | "three" => .ok 3
  | "four" => .ok 4
  | "five" => .ok 5
  | "six" => .ok 6
  | "seven" => .ok 7
  | "eight" => .ok 8
  | "nine" => .ok 9
  | "ten" => .ok 10
  | "eleven" => .ok 11
  | "twelve" => .ok 12
  | "thirteen" => .ok 13
  | "fourteen" => .ok 14
  | "fifteen" => .ok 15
  | "sixteen" => .ok 16
  | "seventeen" => .ok 17
  | "eighteen" => .ok 18
  | "nineteen" => .ok 19
  | "twenty" => .ok 20
  | "thirty" => .ok 30
  | "forty" => .ok 40
  | "fifty" => .ok 50
  | "sixty" => .ok 60
  | "seventy" => .ok 70
  | "eighty" => .ok 80
  | "ninety" => .ok 90
  | "hundred" => .ok 100
  | "thousand" => .ok 1000
  | "million" => .ok 1000000
  | _ => .error .valueError

/-- Sequential evaluation of a list comprehension whose element expression can
raise: the first raising element aborts the whole comprehension. -/
def mapExcept (f : String → Except PyErr Nat) : List String → Except PyErr (List Nat)
  | [] => .ok []
  | w :: ws => do
    let n ← f w
    let ns ← mapExcept f ws
    .ok (n :: ns)

namespace string_utils

/-- Embedding of numeric_str_to_int (src/src/utils/string_utils.py, lines
40-52): split on single spaces, convert each word with the word-to-number
parser, join the decimal representations and parse the concatenation. -/
def numeric_str_to_int (numeric_str : String) : Except PyErr Int :=
  match mapExcept word_to_num (pySplit numeric_str " ") with
  | .error e => .error e
  | .ok ns => pyInt (String.join (ns.map (fun n => toString n)))

/-- Embedding of string_to_camel_case (src/src/utils/string_utils.py, lines
69-84, identical to src/src/helperFunctions.py lines 81-96): capitalize every
whitespace-separated word and concatenate; with lower=True the first entry of
the capitalized list is lowercased, indexing element 0 without a guard. -/
def string_to_camel_case (input_str : String) (lower : Bool := false) :
    Except PyErr String :=
  let words := pySplitWs input_str
  let capitalized_words := words.map pyCapitalize
  if lower then
    match capitalized_words with
    | [] => .error .indexError
    | w :: ws => .ok (String.join (pyLower w :: ws))
  else
    .ok (String.join capitalized_words)

/-- Embedding of string_to_snake_case (src/src/utils/string_utils.py, lines
86-96): replace every space with an underscore. -/
def string_to_snake_case (input_str : String) : String :=
  pyReplace input_str " " "_"

/-- Embedding of extract_number_from_string (src/src/utils/string_utils.py,
lines 98-116): integer before a colon if present, else direct parse of an
all-digit text, else the spoken-number parser; ValueError (and the speech
library UnknownValueError) from any branch yields the default 1. -/
def extract_number_from_string (text : String) : Int :=
  if pyContains text ":" then
    match pyInt (((pySplit text ":").headD "")) with
    | .ok k => k
    | .error _ => 1
  else if pyIsDigit text then
    (natOfDigitsL text.toList : Int)
  else
    match numeric_str_to_int text with
    | .ok k => k
    | .error _ => 1

end string_utils

/-- Entry of a loaded command: the fields of the Command / CommandManager
classes that the verified utilities read (name, key, num_key). Neither class
defines an attribute named action. -/
structure CmdEntry where
  name : String
  key : String
  num_key : String
  deriving DecidableEq, Repr

namespace helperFunctions

/-- Embedding of convert_to_spelling (src/src/helperFunctions.py, lines
59-78): for each whitespace word, the first command whose name equals the word
contributes its key; unmatched words contribute nothing. -/
def convert_to_spelling (text : String) (spelling_commands : List CmdEntry) : String :=
  String.join ((pySplitWs text).map (fun word =>
    match spelling_commands.find? (fun command => command.name == word) with
    | some command => command.key
    | none => ""))

end helperFunctions

namespace string_utils

/-- Embedding of convert_to_spelling (src/src/utils/string_utils.py, lines
54-67). The source builds a dict comprehension reading command.action for
every command; no command class of the repository (CommandClasses.Command,
commands/command_manager.CommandManager) defines an attribute named action, so
with a non-empty command list the first iteration of the comprehension raises
AttributeError. With an empty list the dict is empty and every word maps to
the empty default. -/
def convert_to_spelling (text : String) (spelling_commands : List CmdEntry) :
    Except PyErr String :=
  match spelling_commands with
  | [] => .ok (String.join ((pySplitWs text).map (fun _ => "")))
  | _ :: _ => .error (.attributeError "action")

end string_utils

namespace command_executors

/-- Embedding of the repeat-count resolution of KeyboardCommandExecutor.execute
(src/src/commands/command_executors.py, lines 210-231). The suffix of name
after dropping len(num_key) characters is resolved to a count: the integer
before a colon when the suffix contains one (ValueError yielding 1); a direct
parse when the suffix is all digits; otherwise extract_number_from_string,
which never raises (its internal try absorbs all parser failures). The
executor then presses the key chord that many times. This definition is the
slice self.name[len(self.num_key):]. -/
def name_suffix (name num_key : String) : String :=
  String.mk (name.toList.drop num_key.toList.length)

/-- Embedding of the conditional chain of KeyboardCommandExecutor.execute
resolving the repeat count from the name suffix. -/
def keyboard_repeat_count (name num_key : String) : Int :=
  if pyContains (name_suffix name num_key) ":" then
    match pyInt ((pySplit (name_suffix name num_key) ":").headD "") with
    | .ok k => k
    | .error _ => 1
  else if pyIsDigit (name_suffix name num_key) then
    (natOfDigitsL (name_suffix name num_key).toList : Int)
  else
    string_utils.extract_number_from_string (name_suffix name num_key)

end command_executors

namespace text_processor

/-- Number of leading capital-letter-plus-dot pairs, the greedy repetition
count of the acronym pattern (a sequence of [A-Z] each followed by a dot). -/
def capDotPairs : List Char → Nat
  | c :: d :: rest => if c.isUpper && d == '.' then 1 + capDotPairs rest else 0
  | _ => 0

theorem capDotPairs_le (l : List Char) : 2 * capDotPairs l ≤ l.length := by
  match l with
  | [] => simp [capDotPairs]
  | [c] => simp [capDotPairs]
  | c :: d :: rest =>
    have ih := capDotPairs_le rest
    simp only [capDotPairs]
    split
    · simp only [List.length_cons]
      omega
    · simp

/-- Whether the character at the given index is a regex word character. -/
def wordCharAt (l : List Char) (i : Nat) : Bool :=
  match l.drop i with
  | c :: _ => PyStr.isWordChar c
  | [] => false

/-- Embedding of re.findall applied to the acronym pattern of preprocess
(src/src/commands/text_processor.py, line 93): at each position where the
previous character is not a word character, match greedily as many
capital-plus-dot pairs as possible (at least two); the final word boundary
holds when the next character is a word character, otherwise the engine
backtracks one pair (possible only when at least three were matched);
matches are non-overlapping and the scan resumes after each match. -/
def acronymScan (prevWord : Bool) (l : List Char) : List (List Char) :=
  if hk : prevWord = false ∧ 2 ≤ capDotPairs l then
    if wordCharAt l (2 * capDotPairs l) then
      (l.take (2 * capDotPairs l)) :: acronymScan false (l.drop (2 * capDotPairs l))
    else if h3 : 3 ≤ capDotPairs l then
      (l.take (2 * (capDotPairs l - 1))) ::
        acronymScan false (l.drop (2 * (capDotPairs l - 1)))
    else
      match l with
      | [] => []
      | c :: t => acronymScan (PyStr.isWordChar c) t
  else
    match l with
    | [] => []
    | c :: t => acronymScan (PyStr.isWordChar c) t
termination_by l.length
decreasing_by
  · have := capDotPairs_le l
    simp only [List.length_drop]
    omega
  · have := capDotPairs_le l
    simp only [List.length_drop]
    omega
  · simp
  · simp

/-- Embedding of the substitution re.sub removing the punctuation characters
.,;:!? not adjacent to a digit (src/src/commands/text_processor.py, line 94).
The lookbehind and lookahead inspect the original text, so the previous
character carried through the recursion is the original one. -/
def removePunctL (prev : Option Char) : List Char → List Char
  | [] => []
  | c :: rest =>
    let isPunct := c == '.' || c == ',' || c == ';' || c == ':' || c == '!' || c == '?'
    let prevDigit := match prev with
      | some p => p.isDigit
      | none => false
    let nextDigit := match rest with
      | d :: _ => d.isDigit
      | [] => false
    if isPunct && !prevDigit && !nextDigit then removePunctL (some c) rest
    else c :: removePunctL (some c) rest

/-- Embedding of TextProcessor.preprocess (src/src/commands/text_processor.py,
lines 83-100): find acronyms, strip punctuation not adjacent to digits,
restore each acronym by replacing its dotless form with the dotted form, and
split into words. -/
def preprocess (text : String) : List String :=
  let acronyms := (acronymScan false text.toList).map (fun l => String.mk l)
  let text2 := String.mk (removePunctL none text.toList)
  let text3 := acronyms.foldl (fun t a => pyReplace t (pyReplace a "." "") a) text2
  pySplitWs text3

/-- Chunk size of TextProcessor (constructor default, line 64). -/
def chunk_size : Nat := 230

/-- Overlap of TextProcessor (constructor default, line 64). -/
def overlap : Nat := 5

/-- Loop of TextProcessor._generate_chunks (src/src/commands/text_processor.py,
lines 154-168): i ranges over 0, step, 2*step, ... with step equal to
chunk_size minus overlap; each iteration yields the chunk of chunk_size words
starting at i and the loop breaks once i + chunk_size reaches the end. -/
def generate_chunks_from (words : List String) (i : Nat) : List (List String) :=
  if h : i < words.length then
    ((words.drop i).take chunk_size) ::
      (if words.length ≤ i + chunk_size then []
       else generate_chunks_from words (i + (chunk_size - overlap)))
  else []
termination_by words.length - i
decreasing_by
  simp only [chunk_size, overlap] at *
  omega

/-- Embedding of TextProcessor._generate_chunks starting at index zero. -/
def generate_chunks (words : List String) : List (List String) :=
  generate_chunks_from words 0

/-- Token produced by the external tagging pipeline: a sub-word text, an
entity label and a confidence score. -/
structure NerToken where
  word : String
  entity : String
  score : Float

/-- Confidence threshold of _align_predictions (default argument, line 171). -/
def confidence_threshold : Float := 0.8

/-- Inner while loop of TextProcessor._align_predictions (lines 191-196):
consume result tokens while they carry the sub-word marker, keeping the last
confident label and the maximal confident score. -/
def consumeSubTokens (results : List NerToken) (label : String) (max_score : Float) :
    String × Float × List NerToken :=
  match results with
  | [] => (label, max_score, [])
  | t :: ts =>
    if pyStartsWith t.word "▁" then
      if confidence_threshold < t.score then
        consumeSubTokens ts t.entity (max max_score t.score)
      else
        consumeSubTokens ts label max_score
    else (label, max_score, t :: ts)

/-- Embedding of TextProcessor._align_predictions (lines 170-200): each word
takes the label and score accumulated from the token stream, which is
consumed left to right across the words. -/
def align_predictions (words : List String) (results : List NerToken) :
    List (String × String × Float) :=
  match words with
  | [] => []
  | w :: ws =>
    match consumeSubTokens results "0" 0.0 with
    | (label, score, rest) => (w, label, score) :: align_predictions ws rest

/-- Embedding of TextProcessor._predict (lines 134-152), parameterized by the
external pipeline: the pipeline is applied once per generated chunk and the
aligned predictions of all chunks are concatenated. -/
def predict (pipe : String → List NerToken) (words : List String) :
    List (String × String × Float) :=
  (generate_chunks words).flatMap
    (fun chunk => align_predictions chunk (pipe (String.intercalate " " chunk)))

/-- Pieces of _prediction_to_text (lines 202-219): a word takes its
punctuation label appended when the label is one of the punctuation marks and
either the word is last or the next label is the zero label. -/
def predictionPieces : List (String × String × Float) → List String
  | [] => []
  | (word, label, _) :: rest =>
    let isLast := rest.isEmpty
    let nextZero := match rest with
      | (_, l2, _) :: _ => l2 == "0"
      | [] => false
    (if pyContains ".,?-:" label && (isLast || nextZero) then word ++ label else word)
      :: predictionPieces rest

/-- Embedding of TextProcessor._prediction_to_text (lines 202-219). -/
def prediction_to_text (predictions : List (String × String × Float)) : String :=
  String.intercalate " " (predictionPieces predictions)

/-- Embedding of TextProcessor.restore_punctuation
(src/src/commands/text_processor.py, lines 102-117), parameterized by the
external tagging pipeline: a text whose strip is empty returns the empty
string before any processing; otherwise the text is preprocessed, predicted
and reassembled. -/
def restore_punctuation (pipe : String → List NerToken) (text : String) : String :=
  if (pyStrip text).isEmpty then ""
  else prediction_to_text (predict pipe (preprocess text))

/-- Number of pipeline invocations performed by restore_punctuation: zero on
the early return, otherwise one per chunk of the preprocessed word list
(predict applies the pipeline exactly once per chunk). -/
def restore_punctuation_model_calls (text : String) : Nat :=
  if (pyStrip text).isEmpty then 0
  else (generate_chunks (preprocess text)).length

/-- Embedding of TextProcessor.capitalize_sentences
(src/src/commands/text_processor.py, lines 119-132): re.split on a single
sentence-ending mark capturing the mark and consuming following whitespace,
keep the pieces whose strip is non-empty, capitalize each and join with the
empty separator. -/
def reSplitCapAux : List Char → List Char → List (List Char)
  | cur, [] => [cur.reverse]
  | cur, c :: rest =>
    if c == '.' || c == '!' || c == '?' then
      cur.reverse :: [c] :: reSplitCapAux [] (rest.dropWhile pyIsSpace)
    else
      reSplitCapAux (c :: cur) rest
termination_by _ l => l.length
decreasing_by
  · have := dropWhile_length_le pyIsSpace rest
    simp only [List.length_cons]
    omega
  · simp

/-- Embedding of re.split applied to the capture pattern of
capitalize_sentences: alternating text pieces and captured marks. -/
def reSplitCap (text : String) : List String :=
  (reSplitCapAux [] text.toList).map (fun l => String.mk l)

/-- Embedding of TextProcessor.capitalize_sentences of the commands module. -/
def capitalize_sentences (text : String) : String :=
  let sentences := reSplitCap text
  let kept := (sentences.filter (fun s => !(pyStrip s).isEmpty)).map pyCapitalize
  String.join kept

end text_processor

namespace TextProcessorLegacy

/-- Embedding of TextProcessor.capitalize_sentences of the root module
(src/src/TextProcessor.py, lines 26-44): for each of the three
sentence-ending separators present in the text, split on it, capitalize every
piece with str.capitalize and rejoin with the same separator. -/
def capitalize_sentences (text : String) : String :=
  ["? ", ". ", "! "].foldl
    (fun t p =>
      if pyContains t p then String.intercalate p ((pySplit t p).map pyCapitalize)
      else t)
    text

end TextProcessorLegacy

/-- Enumeration ProgrammingLanguage (src/src/utils/constants.py). -/
inductive ProgrammingLanguage where
  | python
  | java
  deriving DecidableEq, Repr

/-- Value string of a ProgrammingLanguage member. -/
def ProgrammingLanguage.value : ProgrammingLanguage → String
  | .python => "python"
  | .java => "java"

/-- Enumeration TerminalOS (src/src/utils/constants.py). -/
inductive TerminalOS where
  | linux
  | windows
  deriving DecidableEq, Repr

/-- Value string of a TerminalOS member. -/
def TerminalOS.value : TerminalOS → String
  | .linux => "linux"
  | .windows => "windows"

/-- Enumeration Mode (src/src/utils/constants.py). -/
inductive Mode where
  | dictation
  | spelling
  deriving DecidableEq, Repr

namespace app_state

/-- Embedding of the mutable fields of AppState (src/src/state/app_state.py,
lines 19-51) read or written by the switch-command paths: the toggles, the
enum selections, the raw loaded configuration dictionary (an association list
from category names to command entry lists, None before load_commands) and
the per-category command lists. -/
structure AppState where
  mode : Mode
  typing_active : Bool
  terminate : Bool
  commands : Option (List (String × List CmdEntry))
  switch_commands : List CmdEntry
  keyboard_commands : List CmdEntry
  info_commands : List CmdEntry
  selection_commands : List CmdEntry
  programming : Bool
  programming_language : ProgrammingLanguage
  programming_commands : List CmdEntry
  terminal : Bool
  terminal_os : TerminalOS
  terminal_commands : List CmdEntry
  spelling_commands : List CmdEntry
  git_commands : List CmdEntry
  interactive_commands : List CmdEntry
  browser_commands : List CmdEntry
  punctuation : Bool
  capitalize : Bool
  deriving Repr

/-- Embedding of AppState.print_status (lines 345-369): composes a status
string and pushes it to the UI or the console; no state change and no
exception. -/
def print_status (st : AppState) : Except PyErr AppState :=
  .ok st

/-- Embedding of AppState.switch_mode (lines 371-377). -/
def switch_mode (st : AppState) : Except PyErr AppState :=
  let st := { st with
    mode := match st.mode with
      | .dictation => .spelling
      | .spelling => .dictation }
  print_status st

/-- Embedding of AppState.switch_typing (lines 379-385). -/
def switch_typing (st : AppState) : Except PyErr AppState :=
  print_status { st with typing_active := !st.typing_active }

/-- Embedding of AppState.set_programming_language (lines 396-403). -/
def set_programming_language (st : AppState) (language : ProgrammingLanguage) :
    AppState :=
  { st with programming_language := language }

/-- Embedding of AppState.set_terminal_os (lines 405-412). -/
def set_terminal_os (st : AppState) (os : TerminalOS) : AppState :=
  { st with terminal_os := os }

/-- Embedding of AppState.load_programming_commands (lines 92-101): early
return when programming is off; otherwise the raw dictionary is indexed with
the language key (subscripting None raises TypeError, a missing key raises
KeyError) and the programming list is rebuilt, followed by print_status. -/
def load_programming_commands (st : AppState) : Except PyErr AppState :=
  if !st.programming then .ok st
  else
    match st.commands with
    | none => .error .typeError
    | some d =>
      match d.lookup (st.programming_language.value ++ "_commands") with
      | none => .error (.keyError (st.programming_language.value ++ "_commands"))
      | some entries => print_status { st with programming_commands := entries }

/-- Embedding of AppState.load_terminal_commands (lines 103-111). -/
def load_terminal_commands (st : AppState) : Except PyErr AppState :=
  if !st.terminal then .ok st
  else
    match st.commands with
    | none => .error .typeError
    | some d =>
      match d.lookup (st.terminal_os.value ++ "_commands") with
      | none => .error (.keyError (st.terminal_os.value ++ "_commands"))
      | some entries => print_status { st with terminal_commands := entries }

/-- Attribute lookup of update_status on an AppState instance: no AppState
class of the repository (src/src/state/app_state.py, src/src/AppState.py)
defines a method named update_status (the method of that name lives on the
TexterUI classes), so the access raises AttributeError. -/
def update_status (_ : AppState) : Except PyErr AppState :=
  .error (.attributeError "update_status")

/-- Attribute lookup of switch_punctuation on an AppState instance: neither
AppState class defines it, so the access raises AttributeError. -/
def switch_punctuation (_ : AppState) : Except PyErr AppState :=
  .error (.attributeError "switch_punctuation")

/-- Attribute lookup of switch_capitalization on an AppState instance:
neither AppState class defines it, so the access raises AttributeError. -/
def switch_capitalization (_ : AppState) : Except PyErr AppState :=
  .error (.attributeError "switch_capitalization")

/-- Embedding of AppState.restart_script (lines 414-418): spawns a fresh
interpreter process and then calls sys.exit, which raises SystemExit in the
calling frame. -/
def restart_script (_ : AppState) : Except PyErr AppState :=
  .error .systemExit

end app_state

namespace command_executors

open app_state

/-- Embedding of SwitchCommandExecutor.execute
(src/src/commands/command_executors.py, lines 248-279): the fixed name-to-
action dictionary, the call of the selected action and the trailing
app_state.update_status() call. A name outside the dictionary performs
nothing. The dictionary keys are distinct, so the lookup is embedded as a
first-match conditional chain. -/
def switch_execute (name : String) (st : AppState) : Except PyErr AppState :=
  let act : Option (AppState → Except PyErr AppState) :=
    if name == "go to sleep" then
      some (fun st => .ok { st with typing_active := false })
    else if name == "wake up" then
      some (fun st => .ok { st with typing_active := true })
    else if name == "refresh texter" then
      some restart_script
    else if name == "programming on" then
      some (fun st => .ok { st with programming := true })
    else if name == "programming off" then
      some (fun st => .ok { st with programming := false })
    else if name == "terminal on" then
      some (fun st => .ok { st with terminal := true })
    else if name == "terminal off" then
      some (fun st => .ok { st with terminal := false })
    else if name == "switch mode" then
      some switch_mode
    else if name == "switch punctuation" then
      some switch_punctuation
    else if name == "switch caps" then
      some switch_capitalization
    else if name == "switch cups" then
      some switch_capitalization
    else if name == "switch to java" then
      some (fun st => load_programming_commands (set_programming_language st .java))
    else if name == "switch to python" then
      some (fun st => load_programming_commands (set_programming_language st .python))
    else if name == "switch to windows" then
      some (fun st => load_terminal_commands (set_terminal_os st .windows))
    else if name == "switch to linux" then
      some (fun st => load_terminal_commands (set_terminal_os st .linux))
    else none
  match act with
  | none => .ok st
  | some a => do
    let st2 ← a st
    update_status st2

/-- Names of the switch command map, in source order. -/
def switch_map_names : List String :=
  ["go to sleep", "wake up", "refresh texter", "programming on",
   "programming off", "terminal on", "terminal off", "switch mode",
   "switch punctuation", "switch caps", "switch cups", "switch to java",
   "switch to python", "switch to windows", "switch to linux"]

/-- Whether an execution outcome is a raised AttributeError. -/
def isAttributeError {α : Type} : Except PyErr α → Bool
  | .error (.attributeError _) => true
  | _ => false

end command_executors

namespace SpeechRecognitionUtils

/-- Embedding of the inline switch punctuation handling of
live_speech_interpreter (src/src/SpeechRecognitionUtils.py, lines 90-95):
punctuation is negated and, when the new punctuation value is off, capitalize
is forced off. Input and output are the pair (punctuation, capitalize). -/
def switch_punctuation_live (p c : Bool) : Bool × Bool :=
  let p2 := !p
  (p2, if !p2 then false else c)

/-- Embedding of the inline switch caps handling of live_speech_interpreter
(src/src/SpeechRecognitionUtils.py, lines 96-100): punctuation is assigned
the negation of capitalize, then capitalize is negated; both reads of
capitalize see the original value. Input and output are the pair
(punctuation, capitalize). -/
def switch_caps_live (p c : Bool) : Bool × Bool :=
  let _ := p
  (!c, !c)

end SpeechRecognitionUtils

namespace app_state

/-- Command as seen by the dispatcher of AppState.handle_command: the trigger
name and the outcome of invoking the executor attached to the command for its
category (the executors act by side effects on the desktop, the application
state and external processes; dispatch observes only normal return versus a
raised exception, which the outcome field records). -/
structure DispatchCmd where
  name : String
  exec : Except PyErr Unit
  deriving Repr

/-- Loop body shared by the per-category handler methods of AppState (lines
190-343): walk the category list and, on the first command whose name is a
string prefix of the text, invoke its executor and report handled; an
exception of the executor propagates. -/
def handleList (cmds : List DispatchCmd) (text : String) : Except PyErr Bool :=
  match cmds with
  | [] => .ok false
  | c :: rest =>
    if pyStartsWith text c.name then
      match c.exec with
      | .ok _ => .ok true
      | .error e => .error e
    else handleList rest text

/-- Command catalogs and gating flags of AppState as read by handle_command. -/
structure DispatchState where
  switch_commands : List DispatchCmd
  keyboard_commands : List DispatchCmd
  programming : Bool
  programming_commands : List DispatchCmd
  terminal : Bool
  terminal_commands : List DispatchCmd
  info_commands : List DispatchCmd
  selection_commands : List DispatchCmd
  spelling_commands : List DispatchCmd
  git_commands : List DispatchCmd
  interactive_commands : List DispatchCmd
  browser_commands : List DispatchCmd
  deriving Repr

/-- Embedding of AppState._handle_programming_command (lines 229-245): not
handled when programming is off, otherwise the category loop. -/
def handleProgramming (st : DispatchState) (text : String) : Except PyErr Bool :=
  if !st.programming then .ok false
  else handleList st.programming_commands text

/-- Embedding of AppState._handle_terminal_command (lines 247-263). -/
def handleTerminal (st : DispatchState) (text : String) : Except PyErr Bool :=
  if !st.terminal then .ok false
  else handleList st.terminal_commands text

/-- Embedding of AppState.handle_command (src/src/state/app_state.py, lines
162-188): the handlers are tried in source order (switch, keyboard,
programming, terminal, info, selection, spelling, git, interactive, browser);
the first handler reporting handled stops the walk; nothing catches an
exception raised by an invoked executor. -/
def handle_command (st : DispatchState) (text : String) : Except PyErr Bool := do
  if ← handleList st.switch_commands text then return true
  if ← handleList st.keyboard_commands text then return true
  if ← handleProgramming st text then return true
  if ← handleTerminal st text then return true
  if ← handleList st.info_commands text then return true
  if ← handleList st.selection_commands text then return true
  if ← handleList st.spelling_commands text then return true
  if ← handleList st.git_commands text then return true
  if ← handleList st.interactive_commands text then return true
  if ← handleList st.browser_commands text then return true
  return false

/-- Effective dispatch order of handle_command: concatenation of the category
lists in handler order, with the programming and terminal lists present only
when their gates are on. -/
def dispatch_list (st : DispatchState) : List DispatchCmd :=
  st.switch_commands ++ st.keyboard_commands ++
    (if st.programming then st.programming_commands else []) ++
    (if st.terminal then st.terminal_commands else []) ++
    st.info_commands ++ st.selection_commands ++ st.spelling_commands ++
    st.git_commands ++ st.interactive_commands ++ st.browser_commands

end app_state

namespace error_handler

/-- State of the native ALSA error handler registration: the default (no
handler installed) or the no-op python callback of the module. -/
inductive AlsaHandler where
  | defaultHandler
  | noopCallback
  deriving DecidableEq, Repr

/-- Embedding of the noalsaerr context manager
(src/src/utils/error_handler.py, lines 45-62) under the contextmanager
protocol: the generator installs the no-op callback, yields to the body, and
resets the handler after the yield. The body either returns normally (no
error) or raises; a raised exception is thrown into the generator at the
yield point and, with no try/finally around the yield, the reset line after
the yield is never executed on that path. The body receives and returns the
handler registration it observes. -/
def noalsaerr (body : AlsaHandler → Option PyErr × AlsaHandler)
    (_ : AlsaHandler) : Option PyErr × AlsaHandler :=
  match body AlsaHandler.noopCallback with
  | (none, _) => (none, AlsaHandler.defaultHandler)
  | (some e, h2) => (some e, h2)

end error_handler

/-- Spelling command list of the worked example: alpha maps to a, beta to b. -/
def demo_spelling_commands : List CmdEntry :=
  [⟨"alpha", "a", ""⟩, ⟨"beta", "b", ""⟩]

/-- Loaded configuration dictionary with the four language and OS categories
present, as produced by get_commands on the shipped configuration files. -/
def demo_commands_dict : List (String × List CmdEntry) :=
  [("python_commands", []), ("java_commands", []),
   ("linux_commands", []), ("windows_commands", [])]

/-- AppState immediately after construction and load_commands: the defaults
of the constructor with the raw dictionary stored. -/
def demo_app_state : app_state.AppState :=
  { mode := .dictation
    typing_active := true
    terminate := false
    commands := some demo_commands_dict
    switch_commands := []
    keyboard_commands := []
    info_commands := []
    selection_commands := []
    programming := true
    programming_language := .python
    programming_commands := []
    terminal := true
    terminal_os := .linux
    terminal_commands := []
    spelling_commands := []
    git_commands := []
    interactive_commands := []
    browser_commands := []
    punctuation := false
    capitalize := false }

/-- Dispatch state holding one loaded switch command whose executor raises
(the switch caps command: its executor calls the undefined
AppState.switch_capitalization, an AttributeError by the class definition). -/
def cex_dispatch_state : app_state.DispatchState :=
  { switch_commands := [⟨"switch caps", .error (.attributeError "switch_capitalization")⟩]
    keyboard_commands := []
    programming := true
    programming_commands := []
    terminal := true
    terminal_commands := []
    info_commands := []
    selection_commands := []
    spelling_commands := []
    git_commands := []
    interactive_commands := []
    browser_commands := [] }

set_option maxRecDepth 8192

theorem mapExcept_error_of_mem {f : String → Except PyErr Nat} {ws : List String}
    {w : String} (hw : w ∈ ws) {e0 : PyErr} (hf : f w = .error e0) :
    ∃ e, mapExcept f ws = .error e := by
  induction ws with
  | nil => cases hw
  | cons v vs ih =>
    cases hv : f v with
    | error e => exact ⟨e, by unfold mapExcept; rw [hv]; rfl⟩
    | ok n =>
      have hwv : w ∈ vs := by
        rcases List.mem_cons.mp hw with h | h
        · subst h
          rw [hv] at hf
          cases hf
        · exact h
      obtain ⟨e, he⟩ := ih hwv
      exact ⟨e, by unfold mapExcept; rw [hv, he]; rfl⟩

/-- C5: numeric_str_to_int splits on spaces, converts each word through the
word-to-number parser, concatenates the digit strings (two five gives 25, not
a sum), parses the concatenation, and raises for an input containing any
unrecognized number word. -/
theorem numeric_str_to_int_spec :
    string_utils.numeric_str_to_int "three" = .ok 3 ∧
    string_utils.numeric_str_to_int "one two three" = .ok 123 ∧
    string_utils.numeric_str_to_int "two five" = .ok 25 ∧
    ∀ text w, w ∈ pySplit text " " → word_to_num w = .error .valueError →
      ∃ e, string_utils.numeric_str_to_int text = .error e := by
  refine ⟨?_, ?_, ?_, ?_⟩
  · have h : pySplit "three" " " = ["three"] := by
      simp [pySplit, splitSepL, startsWithL]
    unfold string_utils.numeric_str_to_int
    rw [h]
    rfl
  · have h : pySplit "one two three" " " = ["one", "two", "three"] := by
      simp [pySplit, splitSepL, startsWithL]
    unfold string_utils.numeric_str_to_int
    rw [h]
    rfl
  · have h : pySplit "two five" " " = ["two", "five"] := by
      simp [pySplit, splitSepL, startsWithL]
    unfold string_utils.numeric_str_to_int
    rw [h]
    rfl
  · intro text w hw hf
    obtain ⟨e, he⟩ := mapExcept_error_of_mem hw hf
    exact ⟨e, by unfold string_utils.numeric_str_to_int; rw [he]⟩

theorem numeric_str_to_int_spec_witness :
    "invalid" ∈ pySplit "invalid input" " " ∧
    ∃ e, string_utils.numeric_str_to_int "invalid input" = .error e := by
  have hm : "invalid" ∈ pySplit "invalid input" " " := by
    have h : pySplit "invalid input" " " = ["invalid", "input"] := by
      simp [pySplit, splitSepL, startsWithL]
    rw [h]
    simp
  exact ⟨hm, numeric_str_to_int_spec.2.2.2 "invalid input" "invalid" hm rfl⟩

theorem splitWsL_all_space {l : List Char} (h : ∀ c ∈ l, pyIsSpace c = true) :
    splitWsL l = [] := by
  induction l with
  | nil => simp [splitWsL]
  | cons c t ih =>
    have hc : pyIsSpace c = true := h c (List.mem_cons_self c t)
    have ht : ∀ d ∈ t, pyIsSpace d = true := fun d hd => h d (List.mem_cons_of_mem c hd)
    simp [splitWsL, hc, ih ht]

/-- C10: on an input with no non-whitespace character, string_to_camel_case
with lower set raises IndexError by indexing the empty word list, while the
same input with lower unset returns the empty string. -/
theorem string_to_camel_case_whitespace :
    ∀ s : String, (∀ c ∈ s.toList, pyIsSpace c = true) →
      string_utils.string_to_camel_case s true = .error .indexError ∧
      string_utils.string_to_camel_case s false = .ok "" := by
  intro s hs
  have hw : pySplitWs s = [] := by
    unfold pySplitWs
    rw [splitWsL_all_space hs]
    rfl
  constructor
  · unfold string_utils.string_to_camel_case
    rw [hw]
    rfl
  · unfold string_utils.string_to_camel_case
    rw [hw]
    rfl

theorem string_to_camel_case_whitespace_witness :
    (∀ c ∈ ("   " : String).toList, pyIsSpace c = true) ∧
    string_utils.string_to_camel_case "   " true = .error .indexError ∧
    string_utils.string_to_camel_case "   " false = .ok "" := by
  have h : ∀ c ∈ ("   " : String).toList, pyIsSpace c = true := by decide
  exact ⟨h, string_to_camel_case_whitespace "   " h⟩

/-- C7: the helperFunctions copy of convert_to_spelling maps each word to the
key of the first spelling command whose name equals it (alpha beta gives ab,
unmatched gamma contributes nothing), while the string_utils copy reads the
attribute action, which no command class of the repository defines, and so
raises AttributeError on the same inputs instead of returning the documented
concatenation. -/
theorem convert_to_spelling_divergence :
    helperFunctions.convert_to_spelling "alpha beta" demo_spelling_commands = "ab" ∧
    helperFunctions.convert_to_spelling "alpha gamma" demo_spelling_commands = "a" ∧
    string_utils.convert_to_spelling "alpha beta" demo_spelling_commands =
      .error (.attributeError "action") := by
  refine ⟨?_, ?_, rfl⟩
  · have h : pySplitWs "alpha beta" = ["alpha", "beta"] := by
      simp [pySplitWs, splitWsL, pyIsSpace, List.takeWhile, List.dropWhile]
    unfold helperFunctions.convert_to_spelling
    rw [h]
    rfl
  · have h : pySplitWs "alpha gamma" = ["alpha", "gamma"] := by
      simp [pySplitWs, splitWsL, pyIsSpace, List.takeWhile, List.dropWhile]
    unfold helperFunctions.convert_to_spelling
    rw [h]
    rfl

/-- C4: on the sentence of the repository test suite
(test_TextProcessor.test_capitalize_sentences), the commands-module
capitalize_sentences drops the spaces after the sentence marks and the root
module capitalize_sentences lowercases previously capitalized segments, so
neither produces the expected capitalization of every sentence with the
separators preserved. -/
theorem capitalize_sentences_failing_example :
    text_processor.capitalize_sentences
        "hello world. this is a test! can it work? yes." =
      "Hello world.This is a test!Can it work?Yes." ∧
    TextProcessorLegacy.capitalize_sentences
        "hello world. this is a test! can it work? yes." =
      "Hello world. this is a test! Can it work? yes." ∧
    ("Hello world.This is a test!Can it work?Yes." : String) ≠
      "Hello world. This is a test! Can it work? Yes." ∧
    ("Hello world. this is a test! Can it work? yes." : String) ≠
      "Hello world. This is a test! Can it work? Yes." := by
  refine ⟨?_, ?_, by decide, by decide⟩
  · have h : text_processor.reSplitCap "hello world. this is a test! can it work? yes." =
        ["hello world", ".", "this is a test", "!", "can it work", "?", "yes", ".", ""] := by
      simp [text_processor.reSplitCap, text_processor.reSplitCapAux, pyIsSpace,
        List.dropWhile]
    unfold text_processor.capitalize_sentences
    rw [h]
    rfl
  · have h1 : pySplit "hello world. this is a test! can it work? yes." "? " =
        ["hello world. this is a test! can it work", "yes."] := by
      simp [pySplit, splitSepL, startsWithL]
    have c1 : pyContains "hello world. this is a test! can it work? yes." "? " = true := by
      simp [pyContains, containsL, startsWithL]
    unfold TextProcessorLegacy.capitalize_sentences
    simp only [List.foldl, c1, if_true, h1]
    have e1 : String.intercalate "? "
        (List.map pyCapitalize ["hello world. this is a test! can it work", "yes."]) =
        "Hello world. this is a test! can it work? Yes." := by rfl
    rw [e1]
    have c2 : pyContains "Hello world. this is a test! can it work? Yes." ". " = true := by
      simp [pyContains, containsL, startsWithL]
    have h2 : pySplit "Hello world. this is a test! can it work? Yes." ". " =
        ["Hello world", "this is a test! can it work? Yes."] := by
      simp [pySplit, splitSepL, startsWithL]
    simp only [c2, if_true, h2]
    have e2 : String.intercalate ". "
        (List.map pyCapitalize ["Hello world", "this is a test! can it work? Yes."]) =
        "Hello world. This is a test! can it work? yes." := by rfl
    rw [e2]
    have c3 : pyContains "Hello world. This is a test! can it work? yes." "! " = true := by
      simp [pyContains, containsL, startsWithL]
    have h3 : pySplit "Hello world. This is a test! can it work? yes." "! " =
        ["Hello world. This is a test", "can it work? yes."] := by
      simp [pySplit, splitSepL, startsWithL]
    simp only [c3, if_true, h3]
    rfl

/-- C2 counterexample: from punctuation on and capitalize on, the inline
switch caps handling of the interpreter loop turns capitalize off but also
turns punctuation off, instead of leaving punctuation on. -/
theorem switch_caps_live_turns_punctuation_off :
    SpeechRecognitionUtils.switch_caps_live true true = (false, false) ∧
    SpeechRecognitionUtils.switch_caps_live true true ≠ (true, false) := by
  decide

/-- C2 amended: toggling punctuation off forces capitalize off; toggling
capitalize on forces punctuation on; toggling capitalize off also forces
punctuation off (after a caps toggle, punctuation equals capitalize); both
toggles preserve the invariant that capitalize implies punctuation. -/
theorem punctuation_caps_toggle_semantics :
    ∀ p c : Bool,
      SpeechRecognitionUtils.switch_punctuation_live true c = (false, false) ∧
      SpeechRecognitionUtils.switch_caps_live p false = (true, true) ∧
      SpeechRecognitionUtils.switch_caps_live p true = (false, false) ∧
      ((SpeechRecognitionUtils.switch_punctuation_live p c).2 = true →
        (SpeechRecognitionUtils.switch_punctuation_live p c).1 = true) ∧
      ((SpeechRecognitionUtils.switch_caps_live p c).2 = true →
        (SpeechRecognitionUtils.switch_caps_live p c).1 = true) := by
  decide

theorem punctuation_caps_toggle_semantics_witness :
    (SpeechRecognitionUtils.switch_caps_live false false).2 = true ∧
    (SpeechRecognitionUtils.switch_caps_live false false).1 = true :=
  ⟨by decide, (punctuation_caps_toggle_semantics false false).2.2.2.2 (by decide)⟩

/-- C8 counterexample: when the body of the noalsaerr scope raises, the
generator-based context manager never reaches the reset call after the yield,
so the no-op callback stays installed instead of the default handler. -/
theorem noalsaerr_exception_skips_reset :
    (error_handler.noalsaerr (fun h => (some PyErr.valueError, h))
        error_handler.AlsaHandler.defaultHandler).2 =
      error_handler.AlsaHandler.noopCallback ∧
    (error_handler.noalsaerr (fun h => (some PyErr.valueError, h))
        error_handler.AlsaHandler.defaultHandler).2 ≠
      error_handler.AlsaHandler.defaultHandler := by
  decide

/-- C8 amended: noalsaerr installs the no-op callback on entry (the body runs
against the no-op registration) and restores the default handler on normal
exit; when the body raises, the exception propagates and the reset is
skipped, leaving whatever registration the body last set. -/
theorem noalsaerr_handler_semantics :
    ∀ (body : error_handler.AlsaHandler →
        Option PyErr × error_handler.AlsaHandler)
      (h h2 : error_handler.AlsaHandler),
      (body .noopCallback = (none, h2) →
        error_handler.noalsaerr body h = (none, .defaultHandler)) ∧
      (∀ e, body .noopCallback = (some e, h2) →
        error_handler.noalsaerr body h = (some e, h2)) := by
  intro body h h2
  constructor
  · intro hb
    unfold error_handler.noalsaerr
    rw [hb]
  · intro e hb
    unfold error_handler.noalsaerr
    rw [hb]

theorem noalsaerr_handler_semantics_witness :
    ((fun h => ((none : Option PyErr), h))
        error_handler.AlsaHandler.noopCallback =
      (none, error_handler.AlsaHandler.noopCallback)) ∧
    error_handler.noalsaerr (fun h => ((none : Option PyErr), h))
        error_handler.AlsaHandler.defaultHandler =
      (none, error_handler.AlsaHandler.defaultHandler) :=
  ⟨rfl, (noalsaerr_handler_semantics (fun h => (none, h))
    error_handler.AlsaHandler.defaultHandler
    error_handler.AlsaHandler.noopCallback).1 rfl⟩

/-- C6: the keyboard repeat count takes the integer before a colon when the
suffix after num_key contains one, a direct parse when the suffix is all
digits, the spoken-word parser otherwise, and defaults to 1 when the
spoken-word parse fails; the resolution is a total function, so no branch
lets an exception escape to the caller. -/
theorem keyboard_repeat_count_spec :
    command_executors.keyboard_repeat_count "press up 3:00" "press up " = 3 ∧
    command_executors.keyboard_repeat_count "press up 17" "press up " = 17 ∧
    command_executors.keyboard_repeat_count "press up three" "press up " = 3 ∧
    command_executors.keyboard_repeat_count "press up one two" "press up " = 12 ∧
    ∀ name num_key,
      pyContains (command_executors.name_suffix name num_key) ":" = false →
      pyIsDigit (command_executors.name_suffix name num_key) = false →
      (∃ e, string_utils.numeric_str_to_int
        (command_executors.name_suffix name num_key) = .error e) →
      command_executors.keyboard_repeat_count name num_key = 1 := by
  refine ⟨?_, ?_, ?_, ?_, ?_⟩
  · have hsuf : command_executors.name_suffix "press up 3:00" "press up " = "3:00" := rfl
    have hc : pyContains "3:00" ":" = true := by
      simp [pyContains, containsL, startsWithL]
    have hs : pySplit "3:00" ":" = ["3", "00"] := by
      simp [pySplit, splitSepL, startsWithL]
    unfold command_executors.keyboard_repeat_count
    rw [hsuf, hc, if_pos rfl, hs]
    rfl
  · have hsuf : command_executors.name_suffix "press up 17" "press up " = "17" := rfl
    have hc : pyContains "17" ":" = false := by
      simp [pyContains, containsL, startsWithL]
    unfold command_executors.keyboard_repeat_count
    rw [hsuf, hc]
    rfl
  · have hsuf : command_executors.name_suffix "press up three" "press up " = "three" := rfl
    have hc : pyContains "three" ":" = false := by
      simp [pyContains, containsL, startsWithL]
    have hn : string_utils.numeric_str_to_int "three" = .ok 3 :=
      numeric_str_to_int_spec.1
    unfold command_executors.keyboard_repeat_count
      string_utils.extract_number_from_string
    rw [hsuf, hc, hn]
    rfl
  · have hsuf : command_executors.name_suffix "press up one two" "press up " =
      "one two" := rfl
    have hc : pyContains "one two" ":" = false := by
      simp [pyContains, containsL, startsWithL]
    have hs : pySplit "one two" " " = ["one", "two"] := by
      simp [pySplit, splitSepL, startsWithL]
    have hn : string_utils.numeric_str_to_int "one two" = .ok 12 := by
      unfold string_utils.numeric_str_to_int
      rw [hs]
      rfl
    unfold command_executors.keyboard_repeat_count
      string_utils.extract_number_from_string
    rw [hsuf, hc, hn]
    rfl
  · intro name num_key hc hd he
    obtain ⟨e, he⟩ := he
    unfold command_executors.keyboard_repeat_count
      string_utils.extract_number_from_string
    simp only [hc, hd, he, Bool.false_eq_true, if_false]

theorem keyboard_repeat_count_spec_witness :
    pyContains (command_executors.name_suffix "press up banana" "press up ") ":" = false ∧
    command_executors.keyboard_repeat_count "press up banana" "press up " = 1 := by
  have hsuf : command_executors.name_suffix "press up banana" "press up " = "banana" := by
    rfl
  have hc : pyContains (command_executors.name_suffix "press up banana" "press up ")
      ":" = false := by
    rw [hsuf]
    simp [pyContains, containsL, startsWithL]
  have hd : pyIsDigit (command_executors.name_suffix "press up banana" "press up ") =
      false := by
    rw [hsuf]
    decide
  have hsp : pySplit "banana" " " = ["banana"] := by
    simp [pySplit, splitSepL, startsWithL]
  have he : string_utils.numeric_str_to_int
      (command_executors.name_suffix "press up banana" "press up ") =
      .error .valueError := by
    rw [hsuf]
    unfold string_utils.numeric_str_to_int
    rw [hsp]
    rfl
  exact ⟨hc, keyboard_repeat_count_spec.2.2.2.2 "press up banana" "press up "
    hc hd ⟨.valueError, he⟩⟩

theorem generate_chunks_single {ws : List String} (h1 : 1 ≤ ws.length)
    (h2 : ws.length ≤ 230) : text_processor.generate_chunks ws = [ws] := by
  unfold text_processor.generate_chunks text_processor.generate_chunks_from
  rw [dif_pos (by omega)]
  rw [if_pos (by simp only [text_processor.chunk_size]; omega)]
  simp only [List.drop_zero]
  rw [List.take_of_length_le (by simpa [text_processor.chunk_size] using h2)]

/-- C9 counterexample: the input consisting of a single period is non-empty
(its strip is non-empty and it contains one whitespace-separated word), yet
restore_punctuation performs zero model invocations on it, because the
preprocessing removes the period and leaves no words, hence no chunks. -/
theorem restore_punctuation_dot_zero_calls :
    (pyStrip ".").isEmpty = false ∧
    pySplitWs "." = ["."] ∧
    text_processor.restore_punctuation_model_calls "." = 0 := by
  refine ⟨by decide, ?_, ?_⟩
  · simp [pySplitWs, splitWsL, pyIsSpace, List.takeWhile, List.dropWhile]
  · have hp : text_processor.preprocess "." = [] := by
      simp [text_processor.preprocess, text_processor.acronymScan,
        text_processor.capDotPairs, text_processor.removePunctL, pySplitWs,
        splitWsL, pyIsSpace]
    have hz : text_processor.generate_chunks ([] : List String) = [] := by
      unfold text_processor.generate_chunks text_processor.generate_chunks_from
      simp
    unfold text_processor.restore_punctuation_model_calls
    rw [hp, hz]
    rfl

/-- C9 amended: an input whose strip is empty makes restore_punctuation
return the empty string with zero model invocations; an input whose strip is
non-empty and whose preprocessed word list has between 1 and 230 words is
tagged in exactly one model invocation (one chunk). An input that is
non-empty but preprocesses to zero words (such as a lone period) gets zero
invocations. -/
theorem restore_punctuation_call_counts :
    (∀ (pipe : String → List text_processor.NerToken) (text : String),
      (pyStrip text).isEmpty = true →
      text_processor.restore_punctuation pipe text = "" ∧
      text_processor.restore_punctuation_model_calls text = 0) ∧
    (∀ text : String,
      (pyStrip text).isEmpty = false →
      1 ≤ (text_processor.preprocess text).length →
      (text_processor.preprocess text).length ≤ 230 →
      text_processor.restore_punctuation_model_calls text = 1) := by
  constructor
  · intro pipe text h
    constructor
    · unfold text_processor.restore_punctuation
      rw [h]
      rfl
    · unfold text_processor.restore_punctuation_model_calls
      rw [h]
      rfl
  · intro text h h1 h2
    unfold text_processor.restore_punctuation_model_calls
    rw [h]
    simp only [Bool.false_eq_true, if_false]
    rw [generate_chunks_single h1 h2]
    rfl

theorem restore_punctuation_call_counts_witness :
    ((pyStrip "").isEmpty = true ∧
      text_processor.restore_punctuation (fun _ => []) "" = "" ∧
      text_processor.restore_punctuation_model_calls "" = 0) ∧
    ((pyStrip "hello").isEmpty = false ∧
      text_processor.restore_punctuation_model_calls "hello" = 1) := by
  have hp : text_processor.preprocess "hello" = ["hello"] := by
    simp [text_processor.preprocess, text_processor.acronymScan,
      text_processor.capDotPairs, text_processor.wordCharAt, isWordChar,
      text_processor.removePunctL, pySplitWs, splitWsL, pyIsSpace,
      List.takeWhile, List.dropWhile]
  have hempty := restore_punctuation_call_counts.1 (fun _ => []) "" (by decide)
  have hone := restore_punctuation_call_counts.2 "hello" (by decide)
    (by rw [hp]; decide) (by rw [hp]; decide)
  exact ⟨⟨by decide, hempty.1, hempty.2⟩, ⟨by decide, hone⟩⟩

/-- C3 counterexample: the mapped switch command refresh texter does not raise
AttributeError; its action calls restart_script, which relaunches the process
and raises SystemExit before the update_status call is reached. -/
theorem refresh_texter_not_attribute_error :
    command_executors.switch_execute "refresh texter" demo_app_state =
      .error .systemExit ∧
    command_executors.isAttributeError
      (command_executors.switch_execute "refresh texter" demo_app_state) = false := by
  exact ⟨rfl, rfl⟩

/-- C3 amended: against a loaded AppState (raw dictionary stored with the
language and OS categories present), every name in the switch command map
fails to complete: every mapped name except refresh texter raises
AttributeError (the executor calls the undefined app_state.update_status, and
the punctuation and caps entries call the undefined switch_punctuation and
switch_capitalization even earlier), while refresh texter raises SystemExit
through restart_script. -/
theorem switch_commands_all_fail :
    ∀ (name : String) (st : app_state.AppState)
      (d : List (String × List CmdEntry)),
      st.commands = some d →
      (d.lookup "python_commands").isSome = true →
      (d.lookup "java_commands").isSome = true →
      (d.lookup "linux_commands").isSome = true →
      (d.lookup "windows_commands").isSome = true →
      name ∈ command_executors.switch_map_names →
      (name ≠ "refresh texter" →
        command_executors.isAttributeError
          (command_executors.switch_execute name st) = true) ∧
      (name = "refresh texter" →
        command_executors.switch_execute name st = .error .systemExit) := by
  intro name st d hcommands hpy hja hli hwi hmem
  simp only [command_executors.switch_map_names, List.mem_cons,
    List.not_mem_nil, or_false] at hmem
  rcases hmem with h | h | h | h | h | h | h | h | h | h | h | h | h | h | h <;>
    subst h
  · exact ⟨fun _ => rfl, fun h => absurd h (by decide)⟩
  · exact ⟨fun _ => rfl, fun h => absurd h (by decide)⟩
  · exact ⟨fun h => absurd rfl h, fun _ => rfl⟩
  · exact ⟨fun _ => rfl, fun h => absurd h (by decide)⟩
  · exact ⟨fun _ => rfl, fun h => absurd h (by decide)⟩
  · exact ⟨fun _ => rfl, fun h => absurd h (by decide)⟩
  · exact ⟨fun _ => rfl, fun h => absurd h (by decide)⟩
  · exact ⟨fun _ => rfl, fun h => absurd h (by decide)⟩
  · exact ⟨fun _ => rfl, fun h => absurd h (by decide)⟩
  · exact ⟨fun _ => rfl, fun h => absurd h (by decide)⟩
  · exact ⟨fun _ => rfl, fun h => absurd h (by decide)⟩
  · refine ⟨fun _ => ?_, fun h => absurd h (by decide)⟩
    have hok : ∃ st2, app_state.load_programming_commands
        (app_state.set_programming_language st .java) = .ok st2 := by
      unfold app_state.load_programming_commands app_state.set_programming_language
      by_cases hp : st.programming
      · simp only [hp, hcommands, Bool.not_true, Bool.false_eq_true, if_false]
        obtain ⟨v, hv⟩ := Option.isSome_iff_exists.mp hja
        simp only [ProgrammingLanguage.value,
          show ("java" ++ "_commands" : String) = "java_commands" from rfl, hv]
        exact ⟨_, rfl⟩
      · simp only [eq_false_of_ne_true hp]
        exact ⟨_, rfl⟩
    obtain ⟨st2, hst2⟩ := hok
    have hrw : command_executors.switch_execute "switch to java" st =
        (app_state.load_programming_commands
          (app_state.set_programming_language st .java)) >>=
          app_state.update_status := rfl
    rw [hrw, hst2]
    rfl
  · refine ⟨fun _ => ?_, fun h => absurd h (by decide)⟩
    have hok : ∃ st2, app_state.load_programming_commands
        (app_state.set_programming_language st .python) = .ok st2 := by
      unfold app_state.load_programming_commands app_state.set_programming_language
      by_cases hp : st.programming
      · simp only [hp, hcommands, Bool.not_true, Bool.false_eq_true, if_false]
        obtain ⟨v, hv⟩ := Option.isSome_iff_exists.mp hpy
        simp only [ProgrammingLanguage.value,
          show ("python" ++ "_commands" : String) = "python_commands" from rfl, hv]
        exact ⟨_, rfl⟩
      · simp only [eq_false_of_ne_true hp]
        exact ⟨_, rfl⟩
    obtain ⟨st2, hst2⟩ := hok
    have hrw : command_executors.switch_execute "switch to python" st =
        (app_state.load_programming_commands
          (app_state.set_programming_language st .python)) >>=
          app_state.update_status := rfl
    rw [hrw, hst2]
    rfl
  · refine ⟨fun _ => ?_, fun h => absurd h (by decide)⟩
    have hok : ∃ st2, app_state.load_terminal_commands
        (app_state.set_terminal_os st .windows) = .ok st2 := by
      unfold app_state.load_terminal_commands app_state.set_terminal_os
      by_cases hp : st.terminal
      · simp only [hp, hcommands, Bool.not_true, Bool.false_eq_true, if_false]
        obtain ⟨v, hv⟩ := Option.isSome_iff_exists.mp hwi
        simp only [TerminalOS.value,
          show ("windows" ++ "_commands" : String) = "windows_commands" from rfl, hv]
        exact ⟨_, rfl⟩
      · simp only [eq_false_of_ne_true hp]
        exact ⟨_, rfl⟩
    obtain ⟨st2, hst2⟩ := hok
    have hrw : command_executors.switch_execute "switch to windows" st =
        (app_state.load_terminal_commands
          (app_state.set_terminal_os st .windows)) >>=
          app_state.update_status := rfl
    rw [hrw, hst2]
    rfl
  · refine ⟨fun _ => ?_, fun h => absurd h (by decide)⟩
    have hok : ∃ st2, app_state.load_terminal_commands
        (app_state.set_terminal_os st .linux) = .ok st2 := by
      unfold app_state.load_terminal_commands app_state.set_terminal_os
      by_cases hp : st.terminal
      · simp only [hp, hcommands, Bool.not_true, Bool.false_eq_true, if_false]
        obtain ⟨v, hv⟩ := Option.isSome_iff_exists.mp hli
        simp only [TerminalOS.value,
          show ("linux" ++ "_commands" : String) = "linux_commands" from rfl, hv]
        exact ⟨_, rfl⟩
      · simp only [eq_false_of_ne_true hp]
        exact ⟨_, rfl⟩
    obtain ⟨st2, hst2⟩ := hok
    have hrw : command_executors.switch_execute "switch to linux" st =
        (app_state.load_terminal_commands
          (app_state.set_terminal_os st .linux)) >>=
          app_state.update_status := rfl
    rw [hrw, hst2]
    rfl

theorem switch_commands_all_fail_witness :
    ("go to sleep" ∈ command_executors.switch_map_names) ∧
    command_executors.isAttributeError
      (command_executors.switch_execute "go to sleep" demo_app_state) = true :=
  ⟨by decide,
    (switch_commands_all_fail "go to sleep" demo_app_state demo_commands_dict
      rfl (by decide) (by decide) (by decide) (by decide) (by decide)).1
      (by decide)⟩

theorem handleList_append (a b : List app_state.DispatchCmd) (t : String) :
    app_state.handleList (a ++ b) t =
      match app_state.handleList a t with
      | .error e => .error e
      | .ok true => .ok true
      | .ok false => app_state.handleList b t := by
  induction a with
  | nil => simp [app_state.handleList]
  | cons c rest ih =>
    by_cases hc : pyStartsWith t c.name
    · cases hx : c.exec <;> simp [app_state.handleList, hc, hx]
    · simp [app_state.handleList, hc, ih]

theorem handleList_find (l : List app_state.DispatchCmd) (t : String) :
    app_state.handleList l t =
      match l.find? (fun c => pyStartsWith t c.name) with
      | some c =>
        match c.exec with
        | .ok _ => .ok true
        | .error e => .error e
      | none => .ok false := by
  induction l with
  | nil => simp [app_state.handleList]
  | cons c rest ih =>
    by_cases hc : pyStartsWith t c.name
    · cases hx : c.exec <;> simp [app_state.handleList, List.find?, hc, hx]
    · simp [app_state.handleList, List.find?, hc, ih]

theorem handle_command_eq_handleList (st : app_state.DispatchState) (t : String) :
    app_state.handle_command st t =
      app_state.handleList (app_state.dispatch_list st) t := by
  have hprog : app_state.handleList
      (if st.programming then st.programming_commands else []) t =
      app_state.handleProgramming st t := by
    by_cases hp : st.programming <;>
      simp [hp, app_state.handleProgramming, app_state.handleList]
  have hterm : app_state.handleList
      (if st.terminal then st.terminal_commands else []) t =
      app_state.handleTerminal st t := by
    by_cases hp : st.terminal <;>
      simp [hp, app_state.handleTerminal, app_state.handleList]
  unfold app_state.dispatch_list
  rw [handleList_append, handleList_append, handleList_append, handleList_append,
    handleList_append, handleList_append, handleList_append, handleList_append,
    handleList_append, hprog, hterm]
  unfold app_state.handle_command
  cases h1 : app_state.handleList st.switch_commands t with
  | error e => simp [h1, bind, Except.bind, pure, Except.pure]
  | ok b1 =>
    cases b1 <;> simp only [h1, bind, Except.bind] <;> [skip; rfl]
    cases h2 : app_state.handleList st.keyboard_commands t with
    | error e => simp [h2, bind, Except.bind, pure, Except.pure]
    | ok b2 =>
      cases b2 <;> simp only [h2, bind, Except.bind] <;> [skip; rfl]
      cases h3 : app_state.handleProgramming st t with
      | error e => simp [h3, bind, Except.bind, pure, Except.pure]
      | ok b3 =>
        cases b3 <;> simp only [h3, bind, Except.bind] <;> [skip; rfl]
        cases h4 : app_state.handleTerminal st t with
        | error e => simp [h4, bind, Except.bind, pure, Except.pure]
        | ok b4 =>
          cases b4 <;> simp only [h4, bind, Except.bind] <;> [skip; rfl]
          cases h5 : app_state.handleList st.info_commands t with
          | error e => simp [h5, bind, Except.bind, pure, Except.pure]
          | ok b5 =>
            cases b5 <;> simp only [h5, bind, Except.bind] <;> [skip; rfl]
            cases h6 : app_state.handleList st.selection_commands t with
            | error e => simp [h6, bind, Except.bind, pure, Except.pure]
            | ok b6 =>
              cases b6 <;> simp only [h6, bind, Except.bind] <;> [skip; rfl]
              cases h7 : app_state.handleList st.spelling_commands t with
              | error e => simp [h7, bind, Except.bind, pure, Except.pure]
              | ok b7 =>
                cases b7 <;> simp only [h7, bind, Except.bind] <;> [skip; rfl]
                cases h8 : app_state.handleList st.git_commands t with
                | error e => simp [h8, bind, Except.bind, pure, Except.pure]
                | ok b8 =>
                  cases b8 <;> simp only [h8, bind, Except.bind] <;> [skip; rfl]
                  cases h9 : app_state.handleList st.interactive_commands t with
                  | error e => simp [h9, bind, Except.bind, pure, Except.pure]
                  | ok b9 =>
                    cases b9 <;> simp only [h9, bind, Except.bind] <;> [skip; rfl]
                    cases h10 : app_state.handleList st.browser_commands t with
                    | error e => simp [h10, bind, Except.bind, pure, Except.pure]
                    | ok b10 => cases b10 <;> simp [h10, bind, Except.bind, pure, Except.pure]

/-- C1 amended: handle_command tries the catalogs in the order switch,
keyboard, programming (only when the programming flag is on), terminal (only
when the terminal flag is on), info, selection, spelling, git, interactive,
browser; it invokes the executor of the first command in that order whose
name is a string prefix of the text and reports handled; it reports not
handled when no name is a prefix; and when the invoked executor raises,
the exception propagates out of handle_command (nothing in dispatch catches
it). -/
theorem handle_command_first_match :
    ∀ (st : app_state.DispatchState) (text : String),
      app_state.handle_command st text =
        match (app_state.dispatch_list st).find?
            (fun c => pyStartsWith text c.name) with
        | some c =>
          match c.exec with
          | .ok _ => .ok true
          | .error e => .error e
        | none => .ok false := by
  intro st text
  rw [handle_command_eq_handleList, handleList_find]

/-- C1 counterexample: with a loaded switch command whose executor raises
(the switch caps executor raises AttributeError, see the switch executor
theorems), handle_command propagates the exception instead of logging it and
returning false. -/
theorem handle_command_propagates_executor_error :
    app_state.handle_command cex_dispatch_state "switch caps" =
      .error (.attributeError "switch_capitalization") ∧
    app_state.handle_command cex_dispatch_state "switch caps" ≠ .ok false := by
  constructor
  · rfl
  · intro h
    rw [show app_state.handle_command cex_dispatch_state "switch caps" =
        .error (.attributeError "switch_capitalization") from rfl] at h
    cases h
